import Mathlib

/-!
Verification development for the `borrow` crate (partial borrows for Rust structs).

The definitions below are shallow embeddings of the crate's source:
  * `src/lib/src/lib.rs`      — active library iteration (lines 1246 onwards),
  * `src/lib/src/usage_tracker.rs` — leveled usage tracker,
  * `src/macro/src/lib.rs`    — the `Partial` derive and `p!` front end.
Each definition's doc comment names the source item and lines it embeds.
-/

namespace Borrow

-- ====================
-- === Capabilities ===
-- ====================

/-- The capability a single field slot can hold: `Hidden`, `&T` or `&mut T`
(lib.rs `Hidden` marker, line 1650, plus the two reference forms). -/
inductive Cap where
  | hidden
  | ref
  | mut
deriving DecidableEq

/-- A field slot together with the wrapped runtime value: `Hidden` carries no value,
`&T` and `&mut T` carry the referent (`Field.value_no_usage_tracking` in lib.rs). -/
inductive FieldVal (V : Type) where
  | hidden
  | ref (v : V)
  | mut (v : V)
deriving DecidableEq

/-- Capability of a field slot. -/
def FieldVal.cap {V : Type} : FieldVal V → Cap
  | .hidden => Cap.hidden
  | .ref _ => Cap.ref
  | .mut _ => Cap.mut

/-- Build a field slot of a given capability holding value `v` (`v` ignored by `Hidden`). -/
def mkFieldVal {V : Type} (c : Cap) (v : V) : FieldVal V :=
  match c with
  | Cap.hidden => FieldVal.hidden
  | Cap.ref => FieldVal.ref v
  | Cap.mut => FieldVal.mut v

/-- Value-level embedding of the six `Acquire` impls for `AcquireMarker`
(lib.rs lines 1676-1770).  Input: the currently held slot and the requested
capability; output: `some (target, rest)` when an impl exists, `none` otherwise
(no impl means the request does not compile).  Each arm is one impl:
  * `&mut T → Hidden`  (1676): target `Hidden`, rest keeps `&mut T`;
  * `&T → Hidden`      (1689): target `Hidden`, rest keeps `&T`;
  * `Hidden → Hidden`  (1701): target `Hidden`, rest `Hidden`;
  * `&mut T → &mut T`  (1713): target takes the `&mut`, rest becomes `Hidden`;
  * `&mut T → &T`      (1732): target `&T`, rest downgraded to `&T`;
  * `&T → &T`          (1752): target `&T`, rest keeps `&T`. -/
def acquireVal {V : Type} (this : FieldVal V) (target : Cap) :
    Option (FieldVal V × FieldVal V) :=
  match this, target with
  | .mut v, Cap.hidden => some (.hidden, .mut v)
  | .ref v, Cap.hidden => some (.hidden, .ref v)
  | .hidden, Cap.hidden => some (.hidden, .hidden)
  | .mut v, Cap.mut => some (.mut v, .hidden)
  | .mut v, Cap.ref => some (.ref v, .ref v)
  | .ref v, Cap.ref => some (.ref v, .ref v)
  | _, _ => none

/-- The transition lattice exactly as the spec's table states it (spec section 4.1):
`some rest` for the six legal `(held, requested)` pairs, `none` for the rest. -/
def specLatticeRest (held requested : Cap) : Option Cap :=
  match held, requested with
  | Cap.mut, Cap.hidden => some Cap.mut
  | Cap.ref, Cap.hidden => some Cap.ref
  | Cap.hidden, Cap.hidden => some Cap.hidden
  | Cap.mut, Cap.mut => some Cap.hidden
  | Cap.mut, Cap.ref => some Cap.ref
  | Cap.ref, Cap.ref => some Cap.ref
  | _, _ => none

-- ===================
-- === NotEqFields ===
-- ===================

/-- Embedding of the `NotEqFields` trait impls (lib.rs lines 1290-1301) over the
per-field capability lists of two reference-struct instantiations.  The nine
impls cover every `Cons`/`Cons` head pair: heads of different capability give an
unconditional impl, equal heads recurse on the tails; there is no impl for
`Nil`, so two lists that agree at every position are rejected. -/
def notEqFields : List Cap → List Cap → Bool
  | c1 :: t1, c2 :: t2 => if c1 = c2 then notEqFields t1 t2 else true
  | _, _ => false

-- ===============================
-- === IntoPartial / narrowing ===
-- ===============================

/-- Value-level embedding of the derive-generated `into_split_impl`
(macro/src/lib.rs lines 454-517): apply `AcquireMarker::acquire` to every field,
pairing the held slots with the requested capabilities positionally; the whole
narrowing is accepted only when every per-field `Acquire` impl exists. -/
def intoSplitVals {V : Type} : List (FieldVal V) → List Cap →
    Option (List (FieldVal V) × List (FieldVal V))
  | [], [] => some ([], [])
  | f :: fs, t :: ts =>
    match acquireVal f t, intoSplitVals fs ts with
    | some (tgt, rest), some (tgts, rests) => some (tgt :: tgts, rest :: rests)
    | _, _ => none
  | _, _ => none

/-- Models `PartialHelper::partial_borrow_or_eq` (lib.rs line 1835):
`self.split_impl().0`, i.e. narrow and keep only the target half. -/
def pBorrowOrEq {V : Type} (fs : List (FieldVal V)) (tgt : List Cap) :
    Option (List (FieldVal V)) :=
  (intoSplitVals fs tgt).map (fun p => p.1)

/-- Models `PartialHelper::partial_borrow` (lib.rs lines 1842-1845).  In the
source the `NotEq<Target>` bound is commented out with a FIXME
(`where Self: Partial<'s, Target> {//+ NotEq<Target> { // FIXME`), so the method
simply delegates to `partial_borrow_or_eq` with no not-equal check. -/
def pBorrow {V : Type} (fs : List (FieldVal V)) (tgt : List Cap) :
    Option (List (FieldVal V)) :=
  pBorrowOrEq fs tgt

/-- `as_refs_mut` at the value level (macro/src/lib.rs lines 798-824): every field
of the struct is instantiated as `&mut Ti`. -/
def asRefsMutVals {V : Type} (vals : List V) : List (FieldVal V) :=
  vals.map FieldVal.mut

-- =============
-- === Usage ===
-- =============

/-- Modelled from the spec: the `Usage` enum (`none/ref/mut` requested usage) is
referenced by `src/lib/src/usage_tracker.rs` and `src/macro/src/lib.rs` as
`crate::Usage` / `borrow::Usage` but its declaration is not under `src/`.  Its
shape is forced by the source uses: two variants `Ref` and `Mut`
(usage_tracker.rs lines 167-170 match exactly these), ordered with `Ref`
strictly below `Mut` (declaration order of a derived Rust `Ord`). -/
inductive Usage where
  | ref
  | mut
deriving DecidableEq

/-- `Option<Usage>` (`OptUsage` in the source). -/
abbrev OptUsage := Option Usage

/-- Rank realising the derived Rust `Ord` on `Usage`: `Ref < Mut`. -/
def Usage.rank : Usage → Nat
  | .ref => 0
  | .mut => 1

/-- Rank realising the Rust `Ord` on `Option<Usage>`: `None < Some(Ref) < Some(Mut)`. -/
def optRank : OptUsage → Nat
  | none => 0
  | some u => 1 + u.rank

/-- `<` on `Option<Usage>` (Rust `Ord`). -/
def optLt (a b : OptUsage) : Bool := optRank a < optRank b

/-- `>` on `Option<Usage>` (Rust `Ord`), as used in `usage.requested > usage.needed`. -/
def optGt (a b : OptUsage) : Bool := optLt b a

/-- `max` on `Option<Usage>` (Rust `Ord`), as used by
`FieldUsageTracker::register_usage` (usage_tracker.rs line 257). -/
def optMax (a b : OptUsage) : OptUsage := if optLt a b then b else a

-- ======================
-- === String sorting ===
-- ======================

/-- Lexicographic order on codepoint lists, realising Rust's `&str` ordering
(byte-lexicographic; identical on the ASCII identifiers used as field labels). -/
def natListLe : List Nat → List Nat → Bool
  | [], _ => true
  | _ :: _, [] => false
  | a :: as_, b :: bs => if a < b then true else if a = b then natListLe as_ bs else false

/-- `≤` on strings via codepoints. -/
def strLe (a b : String) : Bool :=
  natListLe (a.toList.map Char.toNat) (b.toList.map Char.toNat)

/-- Sorted insertion, the building block of the embedding of `Vec::sort`. -/
def insertStr (x : String) : List String → List String
  | [] => [x]
  | y :: ys => if strLe x y then x :: y :: ys else y :: insertStr x ys

/-- Embedding of `Vec::<&str>::sort()` (stable, lexicographic), used by the
usage report (usage_tracker.rs lines 146 and 150). -/
def sortStrings : List String → List String
  | [] => []
  | x :: xs => insertStr x (sortStrings xs)

/-- Boolean check that a list of strings is in nondecreasing order. -/
def sortedStrB : List String → Bool
  | [] => true
  | [_] => true
  | a :: b :: t => strLe a b && sortedStrB (b :: t)

-- ========================
-- === UsageTrackerData ===
-- ========================

/-- `UsageResult` (usage_tracker.rs lines 58-62): requested vs. observed usage of
one field borrow. -/
structure UsageResult where
  requested : OptUsage
  needed : OptUsage
deriving DecidableEq

/-- One `UsageTrackerData` map: the `(label, usage)` pairs pushed by the field
trackers of one narrowing call site (usage_tracker.rs line 101). -/
abbrev UsageMap := List (String × UsageResult)

/-- The "borrowed but not used" category of `Drop for UsageTrackerData`
(usage_tracker.rs lines 132-141): requested strictly above observed, and nothing
at all observed. -/
def notUsedOf (map : UsageMap) : List String :=
  (map.filter fun e => optGt e.2.requested e.2.needed && e.2.needed.isNone).map (fun e => e.1)

/-- The "borrowed as mut but used as ref" category (same lines): requested
strictly above observed, with some weaker usage observed. -/
def usedAsRefOf (map : UsageMap) : List String :=
  (map.filter fun e => optGt e.2.requested e.2.needed && e.2.needed.isSome).map (fun e => e.1)

/-- The entries of the "To fix the issue" suggestion (usage_tracker.rs lines
155-160): every field with some observed usage, paired with that usage. -/
def requiredOf (map : UsageMap) : List (String × Usage) :=
  map.filterMap fun e => e.2.needed.map fun u => (e.1, u)

/-- Rendering of one suggestion entry (usage_tracker.rs lines 166-171):
`Ref` renders as the bare label, `Mut` as `mut label`. -/
def renderRequired : String × Usage → String
  | (l, Usage.ref) => l
  | (l, Usage.mut) => "mut " ++ l

/-- Sorted insertion by label for suggestion entries. -/
def insertReq (x : String × Usage) : List (String × Usage) → List (String × Usage)
  | [] => [x]
  | y :: ys => if strLe x.1 y.1 then x :: y :: ys else y :: insertReq x ys

/-- Embedding of `required.sort_by(|a, b| a.0.cmp(b.0))` (usage_tracker.rs line 165). -/
def sortRequired : List (String × Usage) → List (String × Usage)
  | [] => []
  | x :: xs => insertReq x (sortRequired xs)

/-- The two category lines of the warning body (usage_tracker.rs lines 144-152,
non-wasm `warning_body!`: each line is prefixed `"\n    "`). -/
def bodyOf (map : UsageMap) : String :=
  (if (notUsedOf map).isEmpty then ""
   else "\n    Borrowed but not used: " ++ String.intercalate ", " (sortStrings (notUsedOf map)) ++ ".")
  ++ (if (usedAsRefOf map).isEmpty then ""
      else "\n    Borrowed as mut but used as ref: " ++ String.intercalate ", " (sortStrings (usedAsRefOf map)) ++ ".")

/-- Embedding of `Drop for UsageTrackerData` (usage_tracker.rs lines 130-177):
the single message a narrowing call site emits on drop, or `none`.  The message
is emitted only when some category is nonempty and at least one field saw some
usage (otherwise the source deliberately stays silent, lines 161-164). -/
def dataDropMsg (loc : String) (map : UsageMap) : Option String :=
  if (bodyOf map).isEmpty then none
  else if (requiredOf map).isEmpty then none
  else some ("Warning [" ++ loc ++ "]:" ++ bodyOf map
    ++ "\n    To fix the issue, use: &<"
    ++ String.intercalate ", " ((sortRequired (requiredOf map)).map renderRequired) ++ ">.")

-- =======================
-- === Warning counter ===
-- =======================

/-- `MAX_WARNING_COUNT` (usage_tracker.rs line 36). -/
def MAX_WARNING_COUNT : Nat := 100

/-- One `warning(msg)` call (usage_tracker.rs lines 21-52): increment the
thread-local counter; print the message while the new count is below the cap;
at exactly the cap print the suppression line instead; afterwards print
nothing.  Returns the new counter and the lines printed. -/
def warnStep (count : Nat) (msg : String) : Nat × List String :=
  let n := count + 1
  (n,
    if n < MAX_WARNING_COUNT then [msg]
    else if n = MAX_WARNING_COUNT then ["Too many warnings, suppressing further ones."]
    else [])

/-- Run a sequence of `warning` calls from a given counter state. -/
def runWarnings : List String → Nat → Nat × List String
  | [], c => (c, [])
  | m :: ms, c =>
    let s := warnStep c m
    let r := runWarnings ms s.1
    (r.1, s.2 ++ r.2)

-- =========================
-- === FieldUsageTracker ===
-- =========================

/-- Embedding of `FieldUsageTracker` (usage_tracker.rs lines 181-190).  The
shared cells are flattened to their current values: `needed_usage` holds the
cell's value, `has_parent` records whether `parent_needed_usage` is `Some`, and
`tracker_attached` whether the aggregation handle `tracker` is `Some`. -/
structure FieldUsageTracker where
  label : String
  requested_usage : OptUsage
  needed_usage : OptUsage
  has_parent : Bool
  disabled : Bool
  tracker_attached : Bool
deriving DecidableEq

/-- `FieldUsageTracker::new` (usage_tracker.rs lines 210-217). -/
def FieldUsageTracker.new (label : String) (requested : OptUsage) : FieldUsageTracker :=
  { label := label, requested_usage := requested, needed_usage := none,
    has_parent := false, disabled := false, tracker_attached := true }

/-- `FieldUsageTracker::new_child` (usage_tracker.rs lines 219-228): an enabled
child record with the newly requested usage, linked to the parent's cell. -/
def FieldUsageTracker.new_child (t : FieldUsageTracker) (requested : Usage) : FieldUsageTracker :=
  { label := t.label, requested_usage := some requested, needed_usage := none,
    has_parent := true, disabled := false, tracker_attached := true }

/-- `FieldUsageTracker::new_child_disabled` (usage_tracker.rs lines 230-239):
a disabled child record with no aggregation handle. -/
def FieldUsageTracker.new_child_disabled (t : FieldUsageTracker) : FieldUsageTracker :=
  { label := t.label, requested_usage := some Usage.mut, needed_usage := none,
    has_parent := true, disabled := true, tracker_attached := false }

/-- `FieldUsageTracker::clone_disabled` (usage_tracker.rs lines 241-250). -/
def FieldUsageTracker.clone_disabled (t : FieldUsageTracker) : FieldUsageTracker :=
  { t with disabled := true, tracker_attached := false }

/-- `FieldUsageTracker::disable` (usage_tracker.rs lines 252-254). -/
def FieldUsageTracker.disable (t : FieldUsageTracker) : FieldUsageTracker :=
  { t with disabled := true }

/-- `FieldUsageTracker::register_usage` (usage_tracker.rs lines 256-258):
record the maximum usage observed so far. -/
def FieldUsageTracker.register_usage (t : FieldUsageTracker) (u : OptUsage) : FieldUsageTracker :=
  { t with needed_usage := optMax t.needed_usage u }

/-- Modelled from the spec and lib.rs `UsageTracker::clone_as_used` (lib.rs lines
1342-1345), used by `Field::clone_as_hidden` (lib.rs line 1424) for the `Hidden`
halves of `Acquire`: a fresh record pre-marked as fully used (so it can never
report a discrepancy), NOT disabled, with no parent and no aggregation handle. -/
def FieldUsageTracker.clone_as_used (t : FieldUsageTracker) : FieldUsageTracker :=
  { label := t.label, requested_usage := some Usage.mut, needed_usage := some Usage.mut,
    has_parent := false, disabled := false, tracker_attached := false }

/-- The entry a `FieldUsageTracker` pushes into its call site's `UsageTrackerData`
map on drop (usage_tracker.rs lines 192-207): pushed only when the record is not
disabled, the type-level `Enabled` flag (`track`) is true, and an aggregation
handle is attached. -/
def fieldDropEntry (track : Bool) (t : FieldUsageTracker) : Option (String × UsageResult) :=
  if !t.disabled && track && t.tracker_attached then
    some (t.label, { requested := t.requested_usage, needed := t.needed_usage })
  else none

/-- Whether dropping the record untouched would contribute a discrepancy
(an entry with observed usage strictly below requested) to the report. -/
def untouchedDiscrepancy (track : Bool) (t : FieldUsageTracker) : Bool :=
  match fieldDropEntry track t with
  | some e => optLt e.2.needed e.2.requested
  | none => false

-- ==========================
-- === Tracked field slot ===
-- ==========================

/-- A `borrow::Field`: a field slot plus its usage-tracker record.  Modelled from
the spec for the thin wrapper itself (the two-parameter `Field<Track, T>` of the
feature-complete iteration is not under `src/`); the tracker payload and all
operations on it are the source embeddings above. -/
structure TrField (V : Type) where
  value : FieldVal V
  tracker : FieldUsageTracker
deriving DecidableEq

/-- The usage level implied by a requested capability (`&T` records a `Ref`
request, `&mut T` a `Mut` request, `Hidden` nothing). -/
def Cap.usage : Cap → OptUsage
  | Cap.hidden => none
  | Cap.ref => some Usage.ref
  | Cap.mut => some Usage.mut

/-- `AcquireMarker::acquire` including its tracker plumbing (lib.rs lines
1676-1770, tracker record semantics from usage_tracker.rs):
  * every target of capability `Hidden` is `clone_as_hidden`, i.e. a pre-marked
    used record (lib.rs lines 1683, 1695, 1707);
  * every other target is an enabled `new_child` recording the newly requested
    usage level (lib.rs lines 1721, 1740, 1760);
  * every rest half is a disabled child (`new_child_disabled`, lib.rs lines
    1684, 1696, 1708, 1741, 1761) EXCEPT the rest of `&mut T → &mut T`, which is
    the pre-marked used `Hidden` clone (lib.rs line 1720). -/
def acquireTr {V : Type} (this : TrField V) (target : Cap) :
    Option (TrField V × TrField V) :=
  match this.value, target with
  | .mut v, Cap.hidden =>
    some (⟨.hidden, this.tracker.clone_as_used⟩, ⟨.mut v, this.tracker.new_child_disabled⟩)
  | .ref v, Cap.hidden =>
    some (⟨.hidden, this.tracker.clone_as_used⟩, ⟨.ref v, this.tracker.new_child_disabled⟩)
  | .hidden, Cap.hidden =>
    some (⟨.hidden, this.tracker.clone_as_used⟩, ⟨.hidden, this.tracker.new_child_disabled⟩)
  | .mut v, Cap.mut =>
    some (⟨.mut v, this.tracker.new_child Usage.mut⟩, ⟨.hidden, this.tracker.clone_as_used⟩)
  | .mut v, Cap.ref =>
    some (⟨.ref v, this.tracker.new_child Usage.ref⟩, ⟨.ref v, this.tracker.new_child_disabled⟩)
  | .ref v, Cap.ref =>
    some (⟨.ref v, this.tracker.new_child Usage.ref⟩, ⟨.ref v, this.tracker.new_child_disabled⟩)
  | _, _ => none

-- ==================
-- === as_refs_mut ===
-- ==================

/-- The struct-ref built by the derive-generated `as_refs_mut` before tracking is
switched off (macro/src/lib.rs lines 806-819): every field is instantiated as
`&mut Ti`, wrapped by `Field::new` with the field's name and a requested usage
of `Some(Usage::Mut)`. -/
def asRefsMutRaw {V : Type} (l : List (String × V)) : List (TrField V) :=
  l.map fun p => ⟨FieldVal.mut p.2, FieldUsageTracker.new p.1 (some Usage.mut)⟩

/-- `HasUsageTrackedFields::disable_field_usage_tracking` (macro/src/lib.rs lines
732-745): disable every field's tracker record. -/
def disableFieldUsageTracking {V : Type} (fs : List (TrField V)) : List (TrField V) :=
  fs.map fun f => ⟨f.value, f.tracker.disable⟩

/-- The struct-ref `as_refs_mut` returns (macro/src/lib.rs lines 806-822): the
raw all-`&mut` struct-ref with its own top-level tracking disabled immediately
after construction (line 820). -/
def asRefsMutRef {V : Type} (l : List (String × V)) : List (TrField V) :=
  disableFieldUsageTracking (asRefsMutRaw l)

/-- The message a whole struct-ref emits when dropped: each field record pushes
its entry (or nothing) into the call site's map, whose drop then produces the
report (usage_tracker.rs lines 130-207). -/
def structRefDropMsg {V : Type} (loc : String) (track : Bool) (fs : List (TrField V)) :
    Option String :=
  dataDropMsg loc (fs.filterMap fun f => fieldDropEntry track f.tracker)

-- ==========================================
-- === Active lib.rs Field (boolean tracker) ===
-- ==========================================

/-- The `UsageTracker` of the active lib.rs iteration (lib.rs lines 1308-1315):
a per-field record with a plain boolean `used` cell (no usage levels), a
`disabled` flag and an optional parent cell (flattened to `has_parent`). -/
structure UsageTrackerLib where
  label : String
  disabled : Bool
  used : Bool
  has_parent : Bool
deriving DecidableEq

/-- `UsageTracker::mark_as_used` (lib.rs lines 1361-1363). -/
def UsageTrackerLib.mark_as_used (t : UsageTrackerLib) : UsageTrackerLib :=
  { t with used := true }

/-- The active lib.rs `Field<T>` (lib.rs lines 1383-1389): the wrapped value plus
its boolean usage tracker. -/
structure LibField (V : Type) where
  value_no_usage_tracking : V
  usage_tracker : UsageTrackerLib
deriving DecidableEq

/-- `impl Deref for Field` (lib.rs lines 1456-1464): mark the tracker as used,
then return the wrapped value.  Rendered state-passing: the result pairs the
returned value with the field's post-call state. -/
def LibField.deref {V : Type} (f : LibField V) : V × LibField V :=
  (f.value_no_usage_tracking,
   { f with usage_tracker := f.usage_tracker.mark_as_used })

/-- `impl DerefMut for Field` (lib.rs lines 1466-1473): mark the tracker as used,
then return the wrapped value mutably. -/
def LibField.deref_mut {V : Type} (f : LibField V) : V × LibField V :=
  (f.value_no_usage_tracking,
   { f with usage_tracker := f.usage_tracker.mark_as_used })

-- ============================
-- === Derive module lookup ===
-- ============================

/-- The `syn::Meta` forms a `#[module...]` attribute can take, as distinguished
by `get_module_tokens` (macro/src/lib.rs lines 87-90): list form
`#[module(tokens)]`, name-value form `#[module = "..."]`, or bare path. -/
inductive AttrMeta where
  | metaList (tokens : String)
  | metaNameValue (value : String)
  | metaPath
deriving DecidableEq

/-- Whether the meta is of list form. -/
def AttrMeta.isList : AttrMeta → Bool
  | .metaList _ => true
  | _ => false

/-- One attribute on the derive input: its path identifier and meta form. -/
structure SynAttr where
  path_ident : String
  meta_form : AttrMeta
deriving DecidableEq

/-- `get_module_tokens` (macro/src/lib.rs lines 81-91): `Some(tokens)` only for
an attribute whose path is `module` and whose meta is of list form. -/
def get_module_tokens (attr : SynAttr) : Option String :=
  if attr.path_ident = "module" then
    match attr.meta_form with
    | .metaList t => some t
    | _ => none
  else none

/-- The module-attribute lookup of `partial_borrow_derive` (macro/src/lib.rs
lines 161-163): `attrs.iter().find_map(get_module_tokens).expect(...)`; the
`expect` panic (which aborts expansion, so no code is generated) is rendered as
`Except.error` carrying the exact panic message. -/
def moduleAttrLookup (attrs : List SynAttr) : Except String String :=
  match attrs.findSome? get_module_tokens with
  | some t => Except.ok t
  | none => Except.error "Expected #[module(...)] attribute"

-- =====================
-- === Graph example ===
-- =====================

/-- `Node` of the worked example (lib.rs doc lines 445-448). -/
structure GNode where
  outputs : List Nat
  inputs : List Nat
deriving DecidableEq

/-- `Edge` of the worked example (lib.rs doc lines 451-454); `src`/`dst` model
the source fields `from`/`to` (`from` is reserved in Lean). -/
structure GEdge where
  src : Option Nat
  dst : Option Nat
deriving DecidableEq

/-- `Graph` of the worked example (lib.rs doc lines 497-503); a group is its
list of node ids. -/
structure Graph where
  nodes : List GNode
  edges : List GEdge
  groups : List (List Nat)
deriving DecidableEq

/-- In-place update of one list element (Rust `edges[i] = ...`; the example only
indexes in bounds). -/
def modifyAt {A : Type} : Nat → (A → A) → List A → List A
  | _, _, [] => []
  | 0, f, x :: xs => f x :: xs
  | n + 1, f, x :: xs => x :: modifyAt n f xs

/-- `detach_node` (lib.rs doc lines 509-517): for every id in the node's taken
`outputs` clear the edge's `from`; for every id in the taken `inputs` clear the
edge's `to`.  The third component is the usage the call registers on the
narrowed `&<mut edges>` borrow: the `graph.edges` field is dereferenced mutably
exactly when some loop body runs. -/
def detach_node (edges : List GEdge) (node : GNode) : List GEdge × GNode × OptUsage :=
  let edges1 := node.outputs.foldl (fun es i => modifyAt i (fun e => { e with src := none }) es) edges
  let edges2 := node.inputs.foldl (fun es i => modifyAt i (fun e => { e with dst := none }) es) edges1
  let used : OptUsage :=
    if node.outputs.isEmpty && node.inputs.isEmpty then none else some Usage.mut
  (edges2, ⟨[], []⟩, used)

/-- `detach_all_nodes` (lib.rs doc lines 520-527) together with the usage
warnings its run can emit, called as in the example's `main` (doc line 550)
on `graph.as_refs_mut()`.  Warning accounting, per the tracker embeddings:
  * the top-level `as_refs_mut` struct-ref has all trackers disabled
    (`asRefsMutRef`), so its drop reports through `structRefDropMsg`;
  * `extract_nodes` gives the extracted `nodes` field an enabled child record
    requested `Mut`; the `for node in nodes` loop dereferences it mutably, so
    its observed usage is `Mut`; the rest struct-ref holds only disabled or
    pre-marked-used records, so its call-site map stays empty;
  * each `detach_node(graph2.partial_borrow(), node)` call narrows to
    `&<mut edges>`; on return the target drops and the `edges` child reports
    requested `Mut` versus the usage computed by `detach_node`. -/
def detach_all_nodes_run (g : Graph) (loc : String) : Graph × List String :=
  let topMsg := structRefDropMsg loc true
    (asRefsMutRef [("nodes", ()), ("edges", ()), ("groups", ())])
  let step := fun (acc : List GEdge × List GNode × List String) (n : GNode) =>
    let r := detach_node acc.1 n
    let w := dataDropMsg loc [("edges", { requested := some Usage.mut, needed := r.2.2 })]
    (r.1, acc.2.1 ++ [r.2.1], acc.2.2 ++ w.toList)
  let res := g.nodes.foldl step (g.edges, [], [])
  let extractMsg := dataDropMsg loc [("nodes", { requested := some Usage.mut, needed := some Usage.mut })]
  let restMsg := dataDropMsg loc []
  (⟨res.2.1, res.1, g.groups⟩,
   res.2.2 ++ extractMsg.toList ++ restMsg.toList ++ topMsg.toList)

/-- The 3-node cyclic graph of the example's `main` (lib.rs doc lines 536-548):
edges 0,1,2 form the cycle node0 → node1 → node2 → node0. -/
def exampleGraph : Graph :=
  { nodes :=
      [ { outputs := [0], inputs := [2] }
      , { outputs := [1], inputs := [0] }
      , { outputs := [2], inputs := [1] } ]
  , edges :=
      [ { src := some 0, dst := some 1 }
      , { src := some 1, dst := some 2 }
      , { src := some 2, dst := some 0 } ]
  , groups := [] }

-- =========================
-- === Concrete fixtures ===
-- =========================

/-- A concrete call-site map: one field unused, one used more weakly than
requested, one used exactly as requested. -/
def exMap : UsageMap :=
  [ ("edges", { requested := some Usage.mut, needed := none })
  , ("nodes", { requested := some Usage.mut, needed := some Usage.ref })
  , ("groups", { requested := some Usage.mut, needed := some Usage.mut }) ]

/-- The message `exMap` produces on drop. -/
def exMsg : String :=
  "Warning [file.rs:10]:\n    Borrowed but not used: edges.\n    Borrowed as mut but used as ref: nodes.\n    To fix the issue, use: &<mut groups, nodes>."

/-- A concrete `&mut`-held field slot with a fresh tracker. -/
def c9Field : TrField Nat := ⟨FieldVal.mut 0, FieldUsageTracker.new "edges" (some Usage.mut)⟩

/-- The (target, rest) pair `acquireTr` produces for `c9Field` at request `&T`. -/
def c9Out : TrField Nat × TrField Nat :=
  (⟨FieldVal.ref 0, (FieldUsageTracker.new "edges" (some Usage.mut)).new_child Usage.ref⟩,
   ⟨FieldVal.ref 0, (FieldUsageTracker.new "edges" (some Usage.mut)).new_child_disabled⟩)

/-- A derive input attribute list with a `#[module = "..."]` (name-value form)
attribute and no list-form `#[module(...)]`. -/
def c10Attrs : List SynAttr :=
  [ ⟨"derive", AttrMeta.metaPath⟩, ⟨"module", AttrMeta.metaNameValue "graph"⟩ ]

-- =====================
-- === Helper lemmas ===
-- =====================

/-- Totality of the codepoint-list order. -/
theorem natListLe_total (as_ : List Nat) : ∀ bs : List Nat,
    natListLe as_ bs = true ∨ natListLe bs as_ = true := by
  induction as_ with
  | nil => intro bs; left; rfl
  | cons a t ih =>
    intro bs
    cases bs with
    | nil => right; rfl
    | cons b bs =>
      by_cases hab : a < b
      · left; simp [natListLe, hab]
      · by_cases heq : a = b
        · subst heq
          rcases ih bs with h | h
          · left; simp [natListLe, lt_irrefl, h]
          · right; simp [natListLe, lt_irrefl, h]
        · right
          have hba : b < a := by omega
          simp [natListLe, hba]

/-- Totality of the string order. -/
theorem strLe_total (a b : String) : strLe a b = true ∨ strLe b a = true :=
  natListLe_total _ _

/-- Sorted insertion preserves sortedness. -/
theorem sortedStrB_insert (x : String) (l : List String) (h : sortedStrB l = true) :
    sortedStrB (insertStr x l) = true := by
  induction l with
  | nil => rfl
  | cons y ys ih =>
    by_cases hxy : strLe x y = true
    · simp [insertStr, hxy, sortedStrB, h]
    · have hyx : strLe y x = true := (strLe_total x y).resolve_left hxy
      cases ys with
      | nil => simp [insertStr, hxy, sortedStrB, hyx]
      | cons z zs =>
        have hz : strLe y z = true ∧ sortedStrB (z :: zs) = true := by
          simpa [sortedStrB] using h
        have hrec := ih hz.2
        by_cases hxz : strLe x z = true
        · simp [insertStr, hxy, hxz, sortedStrB, hyx, hz.1, hz.2]
        · have hrec2 : sortedStrB (z :: insertStr x zs) = true := by
            simpa [insertStr, hxz] using hrec
          simp [insertStr, hxy, hxz, sortedStrB, hz.1, hrec2]

/-- The embedded `Vec::sort` produces a sorted list. -/
theorem sortStrings_sorted (l : List String) : sortedStrB (sortStrings l) = true := by
  induction l with
  | nil => rfl
  | cons x xs ih => exact sortedStrB_insert x (sortStrings xs) ih

/-- The warning counter only ever increments: running any batch of warnings adds
exactly its length (usage_tracker.rs lines 42-52; nothing in the source resets
`WARNING_COUNT`). -/
theorem runWarnings_count (ms : List String) : ∀ c : Nat, (runWarnings ms c).1 = c + ms.length := by
  induction ms with
  | nil => intro c; simp [runWarnings]
  | cons m t ih => intro c; simp [runWarnings, warnStep, ih]; omega

/-- Below the cap, every warning is printed verbatim. -/
theorem runWarnings_low (ms : List String) : ∀ c : Nat,
    c + ms.length < MAX_WARNING_COUNT → (runWarnings ms c).2 = ms := by
  induction ms with
  | nil => intro c _; rfl
  | cons m t ih =>
    intro c hc
    have h1 : c + 1 < MAX_WARNING_COUNT := by
      simp [List.length] at hc; omega
    have h2 := ih (c + 1) (by simp [List.length] at hc ⊢; omega)
    simp [runWarnings, warnStep, h1, h2]

/-- At or above the cap, nothing is printed any more. -/
theorem runWarnings_high (ms : List String) : ∀ c : Nat,
    MAX_WARNING_COUNT ≤ c → (runWarnings ms c).2 = [] := by
  induction ms with
  | nil => intro c _; rfl
  | cons m t ih =>
    intro c hc
    have h1 : ¬ (c + 1 < MAX_WARNING_COUNT) := by omega
    have h2 : ¬ (c + 1 = MAX_WARNING_COUNT) := by omega
    have h3 := ih (c + 1) (by omega)
    simp [runWarnings, warnStep, h1, h2, h3]

/-- Warning runs compose. -/
theorem runWarnings_append (xs ys : List String) : ∀ c : Nat,
    runWarnings (xs ++ ys) c =
      ((runWarnings ys (runWarnings xs c).1).1,
       (runWarnings xs c).2 ++ (runWarnings ys (runWarnings xs c).1).2) := by
  induction xs with
  | nil => intro c; simp [runWarnings]
  | cons x t ih => intro c; simp [runWarnings, ih]

/-- The struct-ref returned by `as_refs_mut` contributes no entry to its call
site's report: every top-level tracker is disabled. -/
theorem asRefsMut_entries_none {V : Type} (l : List (String × V)) :
    ((asRefsMutRef l).filterMap fun f => fieldDropEntry true f.tracker) = [] := by
  simp [asRefsMutRef, asRefsMutRaw, disableFieldUsageTracking, fieldDropEntry,
    FieldUsageTracker.disable, FieldUsageTracker.new]

/-- All top-level trackers of an `as_refs_mut` struct-ref are disabled. -/
theorem asRefsMut_all_disabled {V : Type} (l : List (String × V)) :
    ((asRefsMutRef l).all fun f => f.tracker.disabled) = true := by
  induction l with
  | nil => rfl
  | cons p t ih =>
    simpa [asRefsMutRef, asRefsMutRaw, disableFieldUsageTracking,
      FieldUsageTracker.disable] using ih

/-- `NotEqFields` rejects a capability list paired with itself: the recursion
bottoms out at `Nil`, for which no impl exists (lib.rs lines 1290-1301). -/
theorem notEqFields_self : ∀ xs : List Cap, notEqFields xs xs = false := by
  intro xs
  induction xs with
  | nil => rfl
  | cons c t ih => simp [notEqFields, ih]

/-- Splitting an all-`&mut` struct-ref at an all-`&mut` target succeeds, hands
every field (with its referent) to the target, and leaves an all-`Hidden` rest. -/
theorem intoSplit_all_mut {V : Type} (vals : List V) :
    intoSplitVals (asRefsMutVals vals) (vals.map fun _ => Cap.mut)
      = some (asRefsMutVals vals, vals.map fun _ => FieldVal.hidden) := by
  induction vals with
  | nil => rfl
  | cons v t ih => simp [asRefsMutVals, intoSplitVals, acquireVal] at ih ⊢; simp [ih]

-- ======================
-- === Claim theorems ===
-- ======================

/-- C1: for every single-field capability pair, `Acquire` is defined for exactly
the transitions of the spec's lattice table with the stated rest capability
(`Hidden` requests leave the held capability unchanged; `&mut` from `&mut`
leaves `Hidden`; `&T` from `&mut T` makes both target and rest read-only; `&T`
from `&T` leaves `&T`), and no impl exists for the other combinations
(`&mut`/`&T` from `Hidden`, `&mut` from `&T`), so those requests fail to
compile. -/
theorem acquire_matches_spec_lattice {V : Type} :
    ∀ (held tgt : Cap) (v : V),
      (acquireVal (mkFieldVal held v) tgt).map (fun p => (p.1.cap, p.2.cap))
        = (specLatticeRest held tgt).map (fun r => (tgt, r)) := by
  intro held tgt v
  cases held <;> cases tgt <;> rfl

/-- C2: evaluation at the failing input.  `partial_borrow` (whose `NotEq` bound
is commented out with a FIXME, lib.rs line 1843) accepts the identity narrowing
on a singleton `&mut` capability list and behaves exactly like the escape hatch
`partial_borrow_or_eq`, even though the `NotEqFields` relation (which the bound
would consult) rejects the equal lists. -/
theorem pBorrow_accepts_identity_narrowing :
    pBorrow [FieldVal.mut (0 : Nat)] [Cap.mut] = some [FieldVal.mut 0]
  ∧ pBorrow [FieldVal.mut (0 : Nat)] [Cap.mut] = pBorrowOrEq [FieldVal.mut (0 : Nat)] [Cap.mut]
  ∧ notEqFields [Cap.mut] [Cap.mut] = false := ⟨rfl, rfl, rfl⟩

/-- C3: `as_refs_mut` instantiates every field as `&mut Ti` wrapped by
`Field::new` with the field's name and a requested usage of `Mut`, disables the
freshly built struct-ref's own top-level tracking immediately after
construction, and therefore the `as_refs_mut` call by itself emits no usage
warning; the children produced by later narrowings are re-enabled (last
conjunct), so only they can warn. -/
theorem as_refs_mut_all_mut_tracked_silent {V : Type} (l : List (String × V)) (loc : String) :
    (asRefsMutRef l).map (fun f => f.value) = l.map (fun p => FieldVal.mut p.2)
  ∧ (asRefsMutRef l).map (fun f => (f.tracker.label, f.tracker.requested_usage))
      = l.map (fun p => (p.1, some Usage.mut))
  ∧ ((asRefsMutRef l).all fun f => f.tracker.disabled) = true
  ∧ structRefDropMsg loc true (asRefsMutRef l) = none
  ∧ (((FieldUsageTracker.new "f" (some Usage.mut)).disable.new_child Usage.mut).disabled = false) := by
  refine ⟨?_, ?_, asRefsMut_all_disabled l, ?_, rfl⟩
  · simp [asRefsMutRef, asRefsMutRaw, disableFieldUsageTracking]
  · simp [asRefsMutRef, asRefsMutRaw, disableFieldUsageTracking,
      FieldUsageTracker.disable, FieldUsageTracker.new]
  · unfold structRefDropMsg
    rw [asRefsMut_entries_none]
    rfl

/-- C4 counterexample: in the `Deref`/`DerefMut` impls for `Field` that are in
the source (lib.rs lines 1456-1473) both methods call `mark_as_used` on the
same boolean tracker, so at a concrete field the two calls produce identical
recorded states — there are no two distinct recorded levels with `Ref` below
`Mut`. -/
theorem deref_and_deref_mut_record_identically :
    LibField.deref ⟨(7 : Nat), ⟨"geometry", false, false, false⟩⟩
      = LibField.deref_mut ⟨(7 : Nat), ⟨"geometry", false, false, false⟩⟩ := rfl

/-- C4 (amended): `deref` and `deref_mut` each record the field as used (the
single boolean level of the active tracker) and then return exactly the wrapped
capability value, leaving the value untouched; the two methods have the same
instrumentation effect. -/
theorem deref_marks_used_and_returns_value {V : Type} (f : LibField V) :
    (LibField.deref f).1 = f.value_no_usage_tracking
  ∧ (LibField.deref_mut f).1 = f.value_no_usage_tracking
  ∧ (LibField.deref f).2.value_no_usage_tracking = f.value_no_usage_tracking
  ∧ (LibField.deref_mut f).2.value_no_usage_tracking = f.value_no_usage_tracking
  ∧ (LibField.deref f).2.usage_tracker = { f.usage_tracker with used := true }
  ∧ (LibField.deref f).2 = (LibField.deref_mut f).2 :=
  ⟨rfl, rfl, rfl, rfl, rfl, rfl⟩

/-- C5: whenever a usage-tracked struct-ref's call-site record emits a message
on drop, every field whose observed usage is strictly below its requested usage
is categorized into "not used" (nothing observed) or "used as ref" (weaker
access observed); the single message is built from the sorted field names of
each category with exactly the literal wordings `Borrowed but not used`,
`Borrowed as mut but used as ref` and `To fix the issue, use: &<...>`. -/
theorem usage_report_content (loc : String) (map : UsageMap) (msg : String)
    (h : dataDropMsg loc map = some msg) :
    (∀ e ∈ map, optLt e.2.needed e.2.requested = true →
        (e.2.needed = none → e.1 ∈ notUsedOf map)
      ∧ (e.2.needed.isSome = true → e.1 ∈ usedAsRefOf map))
  ∧ bodyOf map
      = (if (notUsedOf map).isEmpty then ""
         else "\n    Borrowed but not used: "
           ++ String.intercalate ", " (sortStrings (notUsedOf map)) ++ ".")
        ++ (if (usedAsRefOf map).isEmpty then ""
            else "\n    Borrowed as mut but used as ref: "
              ++ String.intercalate ", " (sortStrings (usedAsRefOf map)) ++ ".")
  ∧ msg = "Warning [" ++ loc ++ "]:" ++ bodyOf map
      ++ "\n    To fix the issue, use: &<"
      ++ String.intercalate ", " ((sortRequired (requiredOf map)).map renderRequired) ++ ">."
  ∧ sortedStrB (sortStrings (notUsedOf map)) = true
  ∧ sortedStrB (sortStrings (usedAsRefOf map)) = true := by
  refine ⟨?_, rfl, ?_, sortStrings_sorted _, sortStrings_sorted _⟩
  · intro e he hlt
    constructor
    · intro hnone
      have hmem : e ∈ map.filter fun e => optGt e.2.requested e.2.needed && e.2.needed.isNone := by
        refine List.mem_filter.mpr ⟨he, ?_⟩
        simp only [optGt, Bool.and_eq_true]
        exact ⟨hlt, by simp [hnone]⟩
      exact List.mem_map_of_mem _ hmem
    · intro hsome
      have hmem : e ∈ map.filter fun e => optGt e.2.requested e.2.needed && e.2.needed.isSome := by
        refine List.mem_filter.mpr ⟨he, ?_⟩
        simp only [optGt, Bool.and_eq_true]
        exact ⟨hlt, hsome⟩
      exact List.mem_map_of_mem _ hmem
  · unfold dataDropMsg at h
    split at h
    · exact absurd h (by simp)
    · split at h
      · exact absurd h (by simp)
      · exact (Option.some.inj h).symm

/-- C5 witness: the theorem applied to a concrete three-field map. -/
theorem usage_report_content_witness :
    dataDropMsg "file.rs:10" exMap = some exMsg
  ∧ ((∀ e ∈ exMap, optLt e.2.needed e.2.requested = true →
        (e.2.needed = none → e.1 ∈ notUsedOf exMap)
      ∧ (e.2.needed.isSome = true → e.1 ∈ usedAsRefOf exMap))
    ∧ bodyOf exMap
        = (if (notUsedOf exMap).isEmpty then ""
           else "\n    Borrowed but not used: "
             ++ String.intercalate ", " (sortStrings (notUsedOf exMap)) ++ ".")
          ++ (if (usedAsRefOf exMap).isEmpty then ""
              else "\n    Borrowed as mut but used as ref: "
                ++ String.intercalate ", " (sortStrings (usedAsRefOf exMap)) ++ ".")
    ∧ exMsg = "Warning [" ++ "file.rs:10" ++ "]:" ++ bodyOf exMap
        ++ "\n    To fix the issue, use: &<"
        ++ String.intercalate ", " ((sortRequired (requiredOf exMap)).map renderRequired) ++ ">."
    ∧ sortedStrB (sortStrings (notUsedOf exMap)) = true
    ∧ sortedStrB (sortStrings (usedAsRefOf exMap)) = true) :=
  ⟨by decide, usage_report_content "file.rs:10" exMap exMsg (by decide)⟩

/-- C6: triggering 150 discrepancy warnings in one process prints at most 100
warning lines (in fact the first 99), followed by exactly one
`Too many warnings, suppressing further ones.` line, produces zero output for
any later warning, and the backing counter is never reset (it only ever
increments). -/
theorem warning_cap_at_150 (msgs : List String) (h : msgs.length = 150) :
    (runWarnings msgs 0).2 = msgs.take 99 ++ ["Too many warnings, suppressing further ones."]
  ∧ (msgs.take 99).length ≤ 100
  ∧ (∀ more : List String, (runWarnings more (runWarnings msgs 0).1).2 = [])
  ∧ (∀ ms : List String, ∀ c : Nat, c ≤ (runWarnings ms c).1) := by
  have hlen99 : (msgs.take 99).length = 99 := by
    simp [List.length_take, h]
  have hdlen : (msgs.drop 99).length = 51 := by
    simp [List.length_drop, h]
  obtain ⟨m, rest, hd⟩ : ∃ m rest, msgs.drop 99 = m :: rest := by
    cases hx : msgs.drop 99 with
    | nil => rw [hx] at hdlen; simp at hdlen
    | cons a as_ => exact ⟨a, as_, rfl⟩
  have hc1 : (runWarnings (msgs.take 99) 0).1 = 99 := by
    rw [runWarnings_count, hlen99]
  have h1 : (runWarnings (msgs.take 99) 0).2 = msgs.take 99 :=
    runWarnings_low _ 0 (by rw [hlen99]; simp [MAX_WARNING_COUNT])
  have hrest : (runWarnings rest 100).2 = [] :=
    runWarnings_high rest 100 (le_refl _)
  have h2 : (runWarnings (msgs.drop 99) 99).2
      = ["Too many warnings, suppressing further ones."] := by
    rw [hd]
    simp [runWarnings, warnStep, MAX_WARNING_COUNT, hrest]
  have happ := runWarnings_append (msgs.take 99) (msgs.drop 99) 0
  rw [List.take_append_drop] at happ
  have hout : (runWarnings msgs 0).2
      = msgs.take 99 ++ ["Too many warnings, suppressing further ones."] := by
    rw [happ]
    simp [hc1, h1, h2]
  refine ⟨hout, by omega, ?_, ?_⟩
  · intro more
    have hcnt : (runWarnings msgs 0).1 = 150 := by
      rw [runWarnings_count, h]
    rw [hcnt]
    exact runWarnings_high more 150 (by simp [MAX_WARNING_COUNT])
  · intro ms c
    rw [runWarnings_count]
    omega

/-- C6 witness: the theorem applied to a concrete batch of 150 warnings. -/
theorem warning_cap_at_150_witness :
    (List.replicate 150 "w").length = 150
  ∧ ((runWarnings (List.replicate 150 "w") 0).2
      = (List.replicate 150 "w").take 99 ++ ["Too many warnings, suppressing further ones."]
    ∧ ((List.replicate 150 "w").take 99).length ≤ 100
    ∧ (∀ more : List String, (runWarnings more (runWarnings (List.replicate 150 "w") 0).1).2 = [])
    ∧ (∀ ms : List String, ∀ c : Nat, c ≤ (runWarnings ms c).1)) :=
  ⟨by simp, warning_cap_at_150 (List.replicate 150 "w") (by simp)⟩

/-- C7: round-trip — `as_refs_mut` followed by a `partial_borrow` narrowing that
targets all fields as `&mut` succeeds and yields a struct-ref equal
field-for-field (same referents and capabilities) to the one `as_refs_mut`
produced. -/
theorem as_refs_mut_roundtrip {V : Type} (vals : List V) :
    pBorrow (asRefsMutVals vals) (vals.map fun _ => Cap.mut) = some (asRefsMutVals vals) := by
  unfold pBorrow pBorrowOrEq
  rw [intoSplit_all_mut]
  rfl

/-- C8: on the worked example's 3-node cyclic graph, `detach_all_nodes` leaves
every node's `outputs`/`inputs` empty and every edge's `from`/`to` equal to
`None`, and the run emits zero usage warnings. -/
theorem graph_example_detaches_all_and_warns_nothing :
    ((detach_all_nodes_run exampleGraph "lib.rs:550").1.nodes.all
        fun n => n.outputs.isEmpty && n.inputs.isEmpty) = true
  ∧ ((detach_all_nodes_run exampleGraph "lib.rs:550").1.edges.all
        fun e => e.src.isNone && e.dst.isNone) = true
  ∧ (detach_all_nodes_run exampleGraph "lib.rs:550").2 = [] := by
  refine ⟨by decide, by decide, by decide⟩

/-- C9 counterexample: the rest half of the `&mut T → &mut T` transition does
NOT carry a disabled tracker — it is the pre-marked-used `Hidden` clone
(lib.rs line 1720, `clone_as_hidden`/`clone_as_used` line 1343), whose
`disabled` flag is false. -/
theorem acquire_mut_mut_rest_not_disabled :
    (acquireTr ⟨FieldVal.mut (0 : Nat), FieldUsageTracker.new "f" (some Usage.mut)⟩ Cap.mut).map
      (fun p => p.2.tracker.disabled) = some false := rfl

/-- C9 (amended): for every `Acquire` transition the produced rest field carries
a tracker that can never contribute an unused-borrow discrepancy when dropped
untouched (a disabled child for five transitions, the pre-marked-used `Hidden`
clone for the rest of `&mut → &mut`), while the target field of a non-`Hidden`
request carries an enabled, freshly attached child tracker — not disabled,
parented to the source record, with no observed usage yet — recording the newly
requested usage level. -/
theorem acquire_rest_silent_target_child {V : Type} (f : TrField V) (tgt : Cap)
    (out : TrField V × TrField V) (h : acquireTr f tgt = some out) :
    untouchedDiscrepancy true out.2.tracker = false
  ∧ (tgt ≠ Cap.hidden →
      out.1.tracker.disabled = false
    ∧ out.1.tracker.tracker_attached = true
    ∧ out.1.tracker.needed_usage = none
    ∧ out.1.tracker.requested_usage = tgt.usage
    ∧ out.1.tracker.has_parent = true
    ∧ out.1.tracker.label = f.tracker.label) := by
  obtain ⟨fv, tr⟩ := f
  cases fv <;> cases tgt <;> simp [acquireTr] at h <;> rw [← h] <;>
    exact ⟨rfl, by intro ht; first | exact absurd rfl ht | exact ⟨rfl, rfl, rfl, rfl, rfl, rfl⟩⟩

/-- C9 witness: the amended theorem applied to a concrete `&mut`-held field
narrowed to `&T`. -/
theorem acquire_rest_silent_target_child_witness :
    acquireTr c9Field Cap.ref = some c9Out
  ∧ (untouchedDiscrepancy true c9Out.2.tracker = false
    ∧ (Cap.ref ≠ Cap.hidden →
        c9Out.1.tracker.disabled = false
      ∧ c9Out.1.tracker.tracker_attached = true
      ∧ c9Out.1.tracker.needed_usage = none
      ∧ c9Out.1.tracker.requested_usage = Cap.ref.usage
      ∧ c9Out.1.tracker.has_parent = true
      ∧ c9Out.1.tracker.label = c9Field.tracker.label)) :=
  ⟨rfl, acquire_rest_silent_target_child c9Field Cap.ref c9Out rfl⟩

/-- C10: when the derive input carries no list-form `#[module(...)]` attribute
(either no `module` attribute at all, or one of a different meta form such as
`#[module = "x"]`), `partial_borrow_derive`'s lookup fails with exactly the
panic message `Expected #[module(...)] attribute` and no code is generated. -/
theorem module_attr_missing_or_nonlist_is_error (attrs : List SynAttr)
    (h : ∀ a ∈ attrs, a.path_ident = "module" → a.meta_form.isList = false) :
    moduleAttrLookup attrs = Except.error "Expected #[module(...)] attribute" := by
  have hnone : attrs.findSome? get_module_tokens = none := by
    induction attrs with
    | nil => rfl
    | cons a t ih =>
      have ha := h a (List.mem_cons_self a t)
      have hat : get_module_tokens a = none := by
        unfold get_module_tokens
        by_cases hm : a.path_ident = "module"
        · cases hmf : a.meta_form with
          | metaList tk =>
            exfalso
            have hit := ha hm
            rw [hmf] at hit
            simp [AttrMeta.isList] at hit
          | metaNameValue v => simp [hm, hmf]
          | metaPath => simp [hm, hmf]
        · simp [hm]
      rw [List.findSome?_cons, hat]
      exact ih fun b hb => h b (List.mem_cons_of_mem a hb)
  unfold moduleAttrLookup
  rw [hnone]

/-- C10 witness: the theorem applied to a concrete attribute list containing a
name-value `module` attribute and no list-form one. -/
theorem module_attr_missing_or_nonlist_is_error_witness :
    (∀ a ∈ c10Attrs, a.path_ident = "module" → a.meta_form.isList = false)
  ∧ moduleAttrLookup c10Attrs = Except.error "Expected #[module(...)] attribute" :=
  ⟨by decide, module_attr_missing_or_nonlist_is_error c10Attrs (by decide)⟩

end Borrow
